import Mathlib

/-
  Verification development for the process supervisor of the newstown
  repository (src/utils/process_manager.py, class ProcessManager).

  The Python module is embedded shallowly:

  * The parsed on-disk status table (process_status.json) is a finite map
    `Table := String → Option JobRecord`.
  * OS liveness (os.kill(pid, 0) inside _check_pid_exists) is an oracle
    `alive : Int → Bool` passed to each operation.
  * Exceptions that the Python code can raise at a given point are modelled
    by explicit boolean parameters selecting the raising path, and
    try/except recovery by the corresponding branch of the Lean function.
  * File-system writes performed by _save_status are additionally modelled
    as an explicit trace of operations, so that atomicity (or its absence)
    is expressible.

  All definitions are translated from the source file; comments cite the
  source line numbers they embed.
-/

namespace ProcessManager

/-- Opaque launch-parameter blob (the `config` dict forwarded to workers).
The supervisor only stores and returns it. -/
def ConfigBlob := List (String × String)

instance : DecidableEq ConfigBlob := by
  unfold ConfigBlob
  exact inferInstance

/-- One entry of the status table: process_manager.py lines 62-66 store
pid, start_time and config under the job name. `pid` is an Option because
a JSON file read back from disk may hold `null` (and _check_pid_exists
line 87 explicitly handles `pid is None`). -/
structure JobRecord where
  pid : Option Int
  start_time : String
  config : Option ConfigBlob
deriving DecidableEq

/-- The parsed status table, a finite map from job name to record. -/
def Table := String → Option JobRecord

/-- The empty table ({} in Python). -/
def emptyTable : Table := fun _ => none

/-- Python dict assignment `status[name] = record` (line 62). -/
def tableSet (t : Table) (n : String) (r : JobRecord) : Table :=
  fun m => if m = n then some r else t m

/-- Net effect of _remove_status (lines 73-83): delete the entry if
present; removing an absent name leaves the table unchanged. -/
def remove_status (t : Table) (n : String) : Table :=
  fun m => if m = n then none else t m

/-- Python truthiness of a pid value: `if pid and ...` (lines 105, 165,
172, 246) treats both None and 0 as falsy. -/
def pidTruthy : Option Int → Bool
  | none => false
  | some p => p != 0

/-- _check_pid_exists (lines 85-93): returns False for a None pid, else
probes the OS process table via the liveness oracle. The os.kill(pid, 0)
OSError branch is the oracle answering false. -/
def check_pid_exists (alive : Int → Bool) : Option Int → Bool
  | none => false
  | some p => alive p

/-- State of the status file on disk as _load_status can encounter it:
absent, present but not valid JSON, or parsing to a table. -/
inductive FileState
  | absent
  | unparsable
  | parsed (t : Table)

/-- The body of the try block of _load_status (lines 49-53): if the file
exists, json.load it (raising on corrupt content, modelled as .error);
if it does not exist, fall through to `return {}`. -/
def attemptLoad : FileState → Except String Table
  | .absent => .ok emptyTable
  | .unparsable => .error "json decode failure"
  | .parsed t => .ok t

/-- _load_status (lines 47-56): the try/except wrapper around attemptLoad.
Any exception is caught (line 54) and the function returns the empty
table; the function is total, so no error propagates to callers. -/
def load_status (fs : FileState) : Table :=
  match attemptLoad fs with
  | .ok t => t
  | .error _ => emptyTable

/-- File-system operations _save_status can issue. `openTrunc` is
`open(path, 'w')`, which truncates the target in place; `writeAll` is
json.dump of the full table; the temp-file and rename operations are
included in the vocabulary so their absence from the trace is a statement
about the code, not about the model. -/
inductive FsOp
  | openTrunc (path : String)
  | writeAll (path : String) (data : Table)
  | closeFile (path : String)
  | openTempFile (path : String)
  | renameFile (src : String) (dst : String)

/-- The status-file path (self.STATUS_FILE, line 30; the base directory
prefix is irrelevant to the claims and omitted). -/
def statusFilePath : String := "process_status.json"

/-- The exact sequence of file-system operations _save_status (lines
58-71) performs after loading the current table: open the target file
itself in 'w' (truncate) mode (line 68), json.dump the updated table
(line 69), and close on leaving the with-block. -/
def save_status_trace (t : Table) (n : String) (pid : Int)
    (start_time : String) (config : Option ConfigBlob) : List FsOp :=
  [ FsOp.openTrunc statusFilePath,
    FsOp.writeAll statusFilePath
      (tableSet t n ⟨some pid, start_time, config⟩),
    FsOp.closeFile statusFilePath ]

/-- Functional effect of _save_status on the parsed table: insert or
replace the entry for the name (lines 61-66). -/
def save_status (t : Table) (n : String) (pid : Int)
    (start_time : String) (config : Option ConfigBlob) : Table :=
  tableSet t n ⟨some pid, start_time, config⟩

/-- Content of the status file as a reader (another _load_status call, or
a fresh ProcessManager after a crash) can observe it at some instant. An
open-for-write-truncate leaves the file empty, which json.load cannot
parse. -/
inductive FileContent
  | emptyFile
  | jsonTable (t : Table)

/-- Effect of one file-system operation on the status-file content. -/
def runFsOp (c : FileContent) : FsOp → FileContent
  | .openTrunc p => if p = statusFilePath then .emptyFile else c
  | .writeAll p t => if p = statusFilePath then .jsonTable t else c
  | .closeFile _ => c
  | .openTempFile _ => c
  | .renameFile _ _ => c

/-- Observable status-file content after a prefix of the write trace. -/
def runFsOps (c : FileContent) (ops : List FsOp) : FileContent :=
  ops.foldl runFsOp c

/-- What _load_status sees when the file holds the given content: an
empty file is unparsable JSON, a dumped table parses back. -/
def contentToFileState : FileContent → FileState
  | .emptyFile => .unparsable
  | .jsonTable t => .parsed t

/-- In-memory and on-disk state of a ProcessManager instance relevant to
the lifecycle operations: the parsed status table (registry), the
self._processes map (name → pid of the in-memory Popen handle), the
self._log_files map (which names currently hold an open tracked log
handle), and the contents of each job's log file (as a list of lines). -/
structure PMState where
  registry : Table
  processes : String → Option Int
  logFiles : String → Bool
  logData : String → Option (List String)

/-- _cleanup_process (lines 226-230): drop the in-memory Popen handle and
remove the registry entry. Note it does NOT touch self._log_files. -/
def cleanup_process (s : PMState) (n : String) : PMState :=
  { s with
    processes := fun m => if m = n then none else s.processes m,
    registry := remove_status s.registry n }

/-- is_running (lines 232-251). If an in-memory Popen handle exists, its
poll() result decides (poll() is None exactly when the process is alive,
modelled with the same liveness oracle); a dead handle triggers
_cleanup_process. Otherwise the on-disk record's pid is probed: a truthy
live pid reports running, a truthy dead pid is purged via _remove_status,
and a falsy pid (absent entry, or pid null/0) reports not running with no
side effect. Returns the updated state and the boolean result. -/
def is_running (s : PMState) (n : String) (alive : Int → Bool) :
    PMState × Bool :=
  match s.processes n with
  | some p =>
    if alive p then (s, true)
    else (cleanup_process s n, false)
  | none =>
    let pid : Option Int := (s.registry n).bind (fun r => r.pid)
    if pidTruthy pid && check_pid_exists alive pid then (s, true)
    else if pidTruthy pid then
      ({ s with registry := remove_status s.registry n }, false)
    else (s, false)

/-- Environment of one start_process call: the liveness oracle, whether
the subprocess.Popen call succeeds, and on success the pid the OS assigns
and the datetime.now().isoformat() timestamp. -/
structure StartEnv where
  alive : Int → Bool
  spawnOk : Bool
  newPid : Int
  startTime : String

/-- Result of start_process: the new state, the returned boolean, and
whether the log handle opened by this call is still open on return. -/
structure StartRes where
  state : PMState
  ret : Bool
  newHandleOpen : Bool

/-- start_process (lines 110-154). The is_running check (line 112) runs
first, without the lock; on True the call returns False having opened
nothing. Otherwise the job's log file is opened with open(path, 'w')
(line 125), which truncates it to empty. If Popen (lines 131-138) raises,
the inner handler closes the just-opened handle and re-raises (lines
139-141), the outer handler returns False (lines 152-154): the handle is
closed, nothing was stored in _processes, _log_files or the registry. On
spawn success the handle and Popen are stored and _save_status runs under
self._lock (lines 143-147). -/
def start_process (s : PMState) (n : String) (config : Option ConfigBlob)
    (env : StartEnv) : StartRes :=
  let checked := is_running s n env.alive
  if checked.2 then ⟨checked.1, false, false⟩
  else
    let s1 := { checked.1 with
      logData := fun m => if m = n then some [] else checked.1.logData m }
    if env.spawnOk then
      let s2 := { s1 with
        processes := fun m => if m = n then some env.newPid
                              else s1.processes m,
        logFiles := fun m => if m = n then true else s1.logFiles m,
        registry := save_status s1.registry n env.newPid env.startTime
                      config }
      ⟨s2, true, true⟩
    else ⟨s1, false, false⟩

/-- Environment of one stop_process call: liveness of pids at the moment
of the initial probe (line 172), whether the target exits during the
grace-period poll loop (lines 193-197), and whether the SIGTERM call
(line 191, the one OS call of the POSIX branch that is not wrapped in its
own try/except) raises. -/
structure StopEnv where
  aliveNow : Int → Bool
  exitsInGrace : Bool
  signalRaises : Bool

/-- Ghost observables of one stop_process call: which signals were sent
and the boolean the call returns. -/
structure StopTrace where
  sentSigterm : Bool
  sentSigkill : Bool
  ret : Bool
deriving DecidableEq

/-- stop_process (lines 156-224), POSIX branch (sys.platform != win32).
Reads pid from the registry and the in-memory Popen handle; if both are
falsy it returns True immediately (lines 165-167) with no cleanup. The
signalling phase runs only when the target pid is truthy and alive (line
172): SIGTERM (line 191) may raise, in which case the except handler
(lines 221-224) calls _cleanup_process and returns False WITHOUT closing
the log handle. Otherwise the grace poll loop runs and, if the process is
still alive after it, SIGKILL is sent (lines 199-207). On the
non-raising path the tracked log handle is popped and closed (lines
209-215), _cleanup_process runs and True is returned (lines 217-219). -/
def stop_process (s : PMState) (n : String) (env : StopEnv) :
    PMState × StopTrace :=
  let pid : Option Int := (s.registry n).bind (fun r => r.pid)
  let proc : Option Int := s.processes n
  if !pidTruthy pid && proc.isNone then (s, ⟨false, false, true⟩)
  else
    let target : Option Int := match proc with
      | some p => some p
      | none => pid
    if pidTruthy target && check_pid_exists env.aliveNow target then
      if env.signalRaises then (cleanup_process s n, ⟨false, false, false⟩)
      else
        let s1 := { s with
          logFiles := fun m => if m = n then false else s.logFiles m }
        (cleanup_process s1 n, ⟨true, !env.exitsInGrace, true⟩)
    else
      let s1 := { s with
        logFiles := fun m => if m = n then false else s.logFiles m }
      (cleanup_process s1 n, ⟨false, false, true⟩)

/-- A raw value stored under a name in the JSON status file as
_restore_processes can encounter it: a dict (parsed to a JobRecord) or
some other JSON value (legacy format, line 100). -/
inductive RawInfo
  | dict (r : JobRecord)
  | nondict

/-- The keep condition of _restore_processes (lines 98-108): an entry
survives exactly when it is a dict whose pid is truthy and alive; every
other entry is removed via _remove_status. -/
def keepEntry (alive : Int → Bool) : RawInfo → Bool
  | .dict r => pidTruthy r.pid && check_pid_exists alive r.pid
  | .nondict => false

/-- Net effect of _restore_processes (lines 95-108) on the on-disk table,
viewed as its entry list: each name is kept iff its entry passes
keepEntry. -/
def restore_processes (alive : Int → Bool)
    (raw : List (String × RawInfo)) : List (String × RawInfo) :=
  raw.filter (fun e => keepEntry alive e.2)

/-- Python list slice xs[i:] for an arbitrary integer index: a negative
index counts from the end and is clamped at 0, a nonnegative index is an
ordinary offset (clamping beyond the length is what List.drop already
does). -/
def pySliceFrom {α : Type} (xs : List α) (i : Int) : List α :=
  let start : Int := if i < 0 then max ((xs.length : Int) + i) 0 else i
  xs.drop start.toNat

/-- State of a job's log file as get_logs can encounter it: missing,
readable with the given readlines() result, or failing to read (an
exception inside the with-block). -/
inductive LogFileState
  | missing
  | readable (all_lines : List String)
  | unreadable

/-- get_logs (lines 289-299) as the list of returned lines: a missing
file skips the read (line 293) and falls through to return ""; a read
failure is caught (lines 297-298) and also returns ""; otherwise the
result is the Python slice all_lines[-lines:] (line 296). -/
def get_logs_lines : LogFileState → Int → List String
  | .missing, _ => []
  | .unreadable, _ => []
  | .readable xs, lines => pySliceFrom xs (-lines)

/-- get_logs (lines 289-299) as the returned string: the join of the
sliced lines (each element of readlines() keeps its trailing newline,
so join concatenates). -/
def get_logs (f : LogFileState) (lines : Int) : String :=
  String.join (get_logs_lines f lines)

/-
  Interleaving model for two concurrent start_process("j", ...) calls on
  the same name. start_process decomposes into three atomic phases, in
  source order:
    pc 0: the is_running check (line 112) — performed WITHOUT holding
          self._lock;
    pc 1: open the log file and subprocess.Popen (lines 124-138);
    pc 2: store the handle and, under self._lock, _save_status
          (lines 143-147) — the only phase the lock guards.
  The shared state abstracts "the registry/in-memory maps hold a live
  entry for the name" as one boolean (both start calls target a name with
  no live process, and spawns succeed), and counts spawned processes.
-/

/-- Local state of one thread running start_process: its program counter
and, once finished, the boolean start_process returned. -/
structure ThreadSt where
  pc : Nat
  res : Option Bool
deriving DecidableEq

/-- Shared + local state of the two-thread system. -/
structure ConcSys where
  regHasLive : Bool
  spawned : Nat
  th1 : ThreadSt
  th2 : ThreadSt
deriving DecidableEq

/-- One atomic phase of start_process executed by a thread against the
shared state (returns the new shared registry flag, spawn count and
thread state). -/
def stepStart (reg : Bool) (spawned : Nat) (t : ThreadSt) :
    Bool × Nat × ThreadSt :=
  match t.pc with
  | 0 => if reg then (reg, spawned, ⟨3, some false⟩)
         else (reg, spawned, ⟨1, t.res⟩)
  | 1 => (reg, spawned + 1, ⟨2, t.res⟩)
  | 2 => (true, spawned, ⟨3, some true⟩)
  | _ => (reg, spawned, t)

/-- Scheduler step: run one atomic phase of thread 1 (true) or thread 2
(false). -/
def stepSys (g : ConcSys) (i : Bool) : ConcSys :=
  if i then
    match stepStart g.regHasLive g.spawned g.th1 with
    | (r, sp, t) => ⟨r, sp, t, g.th2⟩
  else
    match stepStart g.regHasLive g.spawned g.th2 with
    | (r, sp, t) => ⟨r, sp, g.th1, t⟩

/-- Run a schedule (list of thread choices) from a state. -/
def runSched (g : ConcSys) (sched : List Bool) : ConcSys :=
  sched.foldl stepSys g

/-- Initial state: no live entry for the name, nothing spawned, both
threads about to execute the is_running check. -/
def initConc : ConcSys := ⟨false, 0, ⟨0, none⟩, ⟨0, none⟩⟩

end ProcessManager

namespace ProcessManager

/-- C7: _load_status returns the empty table when the status file is
absent or fails to parse, returns the parsed table otherwise, and is a
total function (every exception of the load is caught locally, so no
caller ever sees an error). -/
theorem c7_load_status_recovers_locally :
    load_status .absent = emptyTable ∧
    load_status .unparsable = emptyTable ∧
    ∀ t : Table, load_status (.parsed t) = t := by
  refine ⟨rfl, rfl, fun t => rfl⟩

/-- C1 fails on the code: the file-system trace of a concrete
_save_status call contains no rename onto the status file (the code
opens the status file itself in 'w' mode, lines 67-69; there is no
temporary file and no os.replace/rename anywhere in the function). -/
theorem c1_counterexample :
    ¬ ∃ tmp : String,
        FsOp.renameFile tmp statusFilePath ∈
          save_status_trace emptyTable "news_collection" 41
            "2026-01-01T09:00:00" none := by
  rintro ⟨tmp, hmem⟩
  simp [save_status_trace] at hmem

/-- C1 amended: _save_status writes the table back by truncating the
status file in place and writing the new JSON into it — no temporary
file and no rename are issued. The final content is the updated table,
but after the truncating open (the first operation of the trace) a
reader observes an empty, unparsable file and _load_status recovers it
as the empty table: the write is not atomic. -/
theorem c1_save_status_truncates_in_place (t : Table) (n : String)
    (pid : Int) (st : String) (cfg : Option ConfigBlob) :
    (∀ src dst : String,
        FsOp.renameFile src dst ∉ save_status_trace t n pid st cfg) ∧
    (∀ p : String,
        FsOp.openTempFile p ∉ save_status_trace t n pid st cfg) ∧
    runFsOps (.jsonTable t) (save_status_trace t n pid st cfg) =
      .jsonTable (save_status t n pid st cfg) ∧
    runFsOps (.jsonTable t) ((save_status_trace t n pid st cfg).take 1) =
      .emptyFile ∧
    load_status (contentToFileState
        (runFsOps (.jsonTable t)
          ((save_status_trace t n pid st cfg).take 1))) = emptyTable := by
  refine ⟨?_, ?_, ?_, ?_, ?_⟩
  · intro src dst h
    simp [save_status_trace] at h
  · intro p h
    simp [save_status_trace] at h
  · simp [save_status_trace, runFsOps, runFsOp, save_status]
  · simp [save_status_trace, runFsOps, runFsOp]
  · simp [save_status_trace, runFsOps, runFsOp, contentToFileState,
      load_status, attemptLoad]

/-- C2 fails on the code: because the is_running check of start_process
runs outside the lock, the interleaving check1, check2, spawn1, commit1,
spawn2, commit2 of two concurrent starts on the same name makes both
calls return started and spawns two processes. -/
theorem c2_counterexample :
    (runSched initConc [true, false, true, true, false, false]).th1.res
        = some true ∧
    (runSched initConc [true, false, true, true, false, false]).th2.res
        = some true ∧
    (runSched initConc [true, false, true, true, false, false]).spawned
        = 2 := by
  refine ⟨rfl, rfl, rfl⟩

/-- C2 amended: in start_process the is_running check runs before and
outside the lock, which guards only the registry write issued after the
spawn; consequently there is a schedule of two concurrent start calls
for the same name under which both return started and two processes are
spawned. Only when the calls do not interleave does the loser observe
already-running with a single process spawned. -/
theorem c2_start_check_not_under_lock :
    (∃ sched : List Bool,
        (runSched initConc sched).th1.res = some true ∧
        (runSched initConc sched).th2.res = some true ∧
        (runSched initConc sched).spawned = 2) ∧
    ((runSched initConc [true, true, true, false]).th1.res = some true ∧
     (runSched initConc [true, true, true, false]).th2.res = some false ∧
     (runSched initConc [true, true, true, false]).spawned = 1) := by
  exact ⟨⟨[true, false, true, true, false, false], rfl, rfl, rfl⟩,
    rfl, rfl, rfl⟩

/-- A state with one running job "news_collection": registry entry with
pid 41, an in-memory Popen handle, and a tracked open log handle. -/
def c3state : PMState :=
  { registry := tableSet emptyTable "news_collection"
      ⟨some 41, "2026-01-01T09:00:00", none⟩,
    processes := fun m => if m = "news_collection" then some 41 else none,
    logFiles := fun m => m == "news_collection",
    logData := fun _ => none }

/-- Stop environment in which the target is alive and the SIGTERM call
raises (the process vanishes between the liveness probe of line 172 and
the os.kill of line 191). -/
def c3envRaise : StopEnv := ⟨fun _ => true, true, true⟩

/-- Stop environment in which the target is alive, exits within the
grace period, and no call raises. -/
def c3envOk : StopEnv := ⟨fun _ => true, true, false⟩

/-- C3 fails on the code: when the SIGTERM call raises, the except
handler of stop_process (lines 221-224) runs _cleanup_process — which
removes the registry entry — but never pops or closes the log handle
(that happens only in the try body, lines 209-215), so stop returns with
the job's log handle still open. -/
theorem c3_counterexample :
    (stop_process c3state "news_collection" c3envRaise).1.logFiles
      "news_collection" = true ∧
    (stop_process c3state "news_collection" c3envRaise).1.registry
      "news_collection" = none ∧
    (stop_process c3state "news_collection" c3envRaise).2.ret = false := by
  refine ⟨rfl, rfl, rfl⟩

/-- C3 amended: on every path of stop_process that gets past the initial
presence test, the registry entry is removed; the log handle, however,
is closed only on the non-raising path (return True) — on the exception
path (return False) the registry entry is removed but the set of open
log handles is exactly what it was before the call. -/
theorem c3_stop_cleanup_paths (s : PMState) (n : String) (env : StopEnv)
    (hpresent : pidTruthy ((s.registry n).bind (fun r => r.pid)) = true ∨
      (s.processes n).isSome = true) :
    ((stop_process s n env).2.ret = true →
        (stop_process s n env).1.logFiles n = false ∧
        (stop_process s n env).1.registry n = none) ∧
    ((stop_process s n env).2.ret = false →
        (stop_process s n env).1.registry n = none ∧
        (stop_process s n env).1.logFiles = s.logFiles) := by
  have hearly : (!pidTruthy ((s.registry n).bind (fun r => r.pid)) &&
      (s.processes n).isNone) = false := by
    rcases hpresent with h | h
    · simp [h]
    · rcases Option.isSome_iff_exists.mp h with ⟨p, hp⟩
      simp [hp]
  unfold stop_process
  simp only [hearly, Bool.false_eq_true, if_false]
  split_ifs with h1 h2
  · refine ⟨fun hret => absurd hret (by simp), fun _ => ⟨?_, rfl⟩⟩
    simp [cleanup_process, remove_status]
  · refine ⟨fun _ => ⟨?_, ?_⟩, fun hret => absurd hret (by simp)⟩
    · simp [cleanup_process]
    · simp [cleanup_process, remove_status]
  · refine ⟨fun _ => ⟨?_, ?_⟩, fun hret => absurd hret (by simp)⟩
    · simp [cleanup_process]
    · simp [cleanup_process, remove_status]

/-- Witness for the amended C3 theorem at a concrete running job and a
non-raising stop. -/
theorem c3_stop_cleanup_paths_witness :
    ((stop_process c3state "news_collection" c3envOk).2.ret = true →
        (stop_process c3state "news_collection" c3envOk).1.logFiles
          "news_collection" = false ∧
        (stop_process c3state "news_collection" c3envOk).1.registry
          "news_collection" = none) ∧
    ((stop_process c3state "news_collection" c3envOk).2.ret = false →
        (stop_process c3state "news_collection" c3envOk).1.registry
          "news_collection" = none ∧
        (stop_process c3state "news_collection" c3envOk).1.logFiles =
          c3state.logFiles) :=
  c3_stop_cleanup_paths c3state "news_collection" c3envOk (Or.inl rfl)

/-- A state with no job at all. -/
def c4idle : PMState :=
  ⟨emptyTable, fun _ => none, fun _ => false, fun _ => none⟩

/-- A state with one running job "uploader" known only through the
registry (pid 52, no in-memory handle). -/
def c4live : PMState :=
  { registry := tableSet emptyTable "uploader"
      ⟨some 52, "2026-01-01T10:00:00", none⟩,
    processes := fun _ => none,
    logFiles := fun m => m == "uploader",
    logData := fun _ => none }

/-- Stop environment: target alive, exits within the grace period. -/
def c4envGraceful : StopEnv := ⟨fun _ => true, true, false⟩

/-- Stop environment: target alive and ignores SIGTERM, so the grace
period elapses and SIGKILL is sent. -/
def c4envStubborn : StopEnv := ⟨fun _ => true, false, false⟩

/-- C4 fails on the code: stop_process returns the same value True for a
name with no live process, for a graceful exit within the grace period,
and for a kill escalation after the grace period (the sentSigkill ghost
field shows the third run really escalated while the second did not).
The boolean result does not distinguish stopped, not-running and
force-killed. -/
theorem c4_counterexample :
    (stop_process c4idle "uploader" c4envGraceful).2.ret = true ∧
    (stop_process c4live "uploader" c4envGraceful).2.ret = true ∧
    (stop_process c4live "uploader" c4envStubborn).2.ret = true ∧
    (stop_process c4live "uploader" c4envGraceful).2.sentSigkill = false ∧
    (stop_process c4live "uploader" c4envStubborn).2.sentSigkill = true := by
  refine ⟨rfl, rfl, rfl, rfl, rfl⟩

/-- After any stop_process call, the stopped name has a falsy pid in the
registry and no in-memory handle (either the call cleaned it up, or the
early not-running branch found it already so). -/
theorem stop_process_clears (s : PMState) (n : String) (env : StopEnv) :
    (!pidTruthy (((stop_process s n env).1.registry n).bind
        (fun r => r.pid)) &&
      ((stop_process s n env).1.processes n).isNone) = true := by
  simp only [stop_process]
  split_ifs with h1 h2 h3
  · simpa using h1
  · simp [cleanup_process, remove_status, pidTruthy]
  · simp [cleanup_process, remove_status, pidTruthy]
  · simp [cleanup_process, remove_status, pidTruthy]

/-- A stop_process call whose target name has a falsy pid and no
in-memory handle takes the early not-running branch: it returns True
and changes nothing. -/
theorem stop_process_early (s : PMState) (n : String) (env : StopEnv)
    (h : (!pidTruthy ((s.registry n).bind (fun r => r.pid)) &&
      (s.processes n).isNone) = true) :
    stop_process s n env = (s, ⟨false, false, true⟩) := by
  unfold stop_process
  simp [h]

/-- C4 amended: stop_process returns one boolean, True alike for
stopped, not-running and force-killed (False arises only when the
signalling raises), and stopping twice in a row returns True both times
— the second call takes the not-running branch, leaves the state
untouched and is never an error. -/
theorem c4_stop_boolean_and_idempotent (s : PMState) (n : String)
    (env env2 : StopEnv) (h : env.signalRaises = false) :
    (stop_process s n env).2.ret = true ∧
    (stop_process (stop_process s n env).1 n env2).2.ret = true ∧
    (stop_process (stop_process s n env).1 n env2).1 =
      (stop_process s n env).1 := by
  have hsecond := stop_process_early (stop_process s n env).1 n env2
    (stop_process_clears s n env)
  refine ⟨?_, ?_, ?_⟩
  · simp only [stop_process]
    split_ifs with h1 h2 h3
    · rfl
    · simp [h] at h3
    · rfl
    · rfl
  · rw [hsecond]
  · rw [hsecond]

/-- Witness for the amended C4 theorem: a concrete running job stopped
gracefully, then stopped again. -/
theorem c4_stop_boolean_and_idempotent_witness :
    (stop_process c4live "uploader" c4envGraceful).2.ret = true ∧
    (stop_process (stop_process c4live "uploader" c4envGraceful).1
      "uploader" c4envStubborn).2.ret = true ∧
    (stop_process (stop_process c4live "uploader" c4envGraceful).1
      "uploader" c4envStubborn).1 =
      (stop_process c4live "uploader" c4envGraceful).1 :=
  c4_stop_boolean_and_idempotent c4live "uploader" c4envGraceful
    c4envStubborn rfl

/-- A state in which a previous run of "news_collection" left a line in
its log file, and nothing is currently running. -/
def c5state : PMState :=
  { registry := emptyTable,
    processes := fun _ => none,
    logFiles := fun _ => false,
    logData := fun m => if m = "news_collection"
      then some ["old output line\n"] else none }

/-- Start environment for C5: spawn succeeds with pid 77. -/
def c5env : StartEnv := ⟨fun _ => false, true, 77, "2026-01-02T09:00:00"⟩

/-- C5 fails on the code: start_process opens the log file with
open(path, 'w') (line 125), which truncates it, so starting a job
discards the log content written by earlier runs — the file that held
one line holds the empty list of lines afterwards. -/
theorem c5_counterexample :
    c5state.logData "news_collection" = some ["old output line\n"] ∧
    (start_process c5state "news_collection" none c5env).state.logData
      "news_collection" = some [] := by
  refine ⟨rfl, rfl⟩

/-- C5 amended: whenever start_process gets past the is_running check it
opens the job's log file in 'w' (truncate) mode, leaving it empty — on
both the spawn-success and the spawn-failure branch — rather than
appending to earlier content. -/
theorem c5_start_truncates_log (s : PMState) (n : String)
    (cfg : Option ConfigBlob) (env : StartEnv)
    (h : (is_running s n env.alive).2 = false) :
    (start_process s n cfg env).state.logData n = some [] := by
  cases hsp : env.spawnOk <;> simp [start_process, h, hsp]

/-- Witness for the amended C5 theorem at the concrete state with prior
log content. -/
theorem c5_start_truncates_log_witness :
    (start_process c5state "news_collection" none c5env).state.logData
      "news_collection" = some [] :=
  c5_start_truncates_log c5state "news_collection" none c5env rfl

/-- A state whose registry holds a record for "collector" with a null
pid (as a hand-edited or legacy status file can contain) and no
in-memory handle. -/
def c6state : PMState :=
  { registry := tableSet emptyTable "collector"
      ⟨none, "2026-01-01T08:00:00", none⟩,
    processes := fun _ => none,
    logFiles := fun _ => false,
    logData := fun _ => none }

/-- A state whose registry holds a record for "collector" with a truthy
pid 99 (used with an oracle under which 99 is dead). -/
def c6wstate : PMState :=
  { registry := tableSet emptyTable "collector"
      ⟨some 99, "2026-01-01T08:00:00", none⟩,
    processes := fun _ => none,
    logFiles := fun _ => false,
    logData := fun _ => none }

/-- C6 fails on the code: a registry record whose pid is null fails the
liveness probe (_check_pid_exists returns False for None, line 87), and
is_running duly reports it as not running — but the purge branch of
is_running (lines 248-249) runs only under `elif pid:`, so the stale
record is NOT removed from the registry by the read. -/
theorem c6_counterexample :
    check_pid_exists (fun _ => false)
      ((c6state.registry "collector").bind (fun r => r.pid)) = false ∧
    (is_running c6state "collector" (fun _ => false)).2 = false ∧
    (is_running c6state "collector" (fun _ => false)).1.registry
      "collector" = some ⟨none, "2026-01-01T08:00:00", none⟩ := by
  refine ⟨rfl, rfl, rfl⟩

/-- is_running with no in-memory handle, written as one conditional. -/
theorem is_running_eval (s : PMState) (n : String) (alive : Int → Bool)
    (hproc : s.processes n = none) :
    is_running s n alive =
      (if pidTruthy ((s.registry n).bind (fun r => r.pid)) &&
          check_pid_exists alive ((s.registry n).bind (fun r => r.pid))
        then (s, true)
        else if pidTruthy ((s.registry n).bind (fun r => r.pid)) then
          ({ s with registry := remove_status s.registry n }, false)
        else (s, false)) := by
  simp only [is_running, hproc]

/-- C6 amended: a read through is_running never reports a record as
running when its pid fails the probe, and it purges the record exactly
when the pid is truthy (non-null, non-zero) and dead; a record with a
falsy (null or zero) pid is reported as not running but left in the
registry untouched. _restore_processes at construction, by contrast,
purges every entry that fails the probe, including non-dict and
falsy-pid entries. -/
theorem c6_read_revalidation (s : PMState) (n : String)
    (alive : Int → Bool) (hproc : s.processes n = none) :
    ((is_running s n alive).2 = true →
        check_pid_exists alive ((s.registry n).bind (fun r => r.pid))
          = true) ∧
    (pidTruthy ((s.registry n).bind (fun r => r.pid)) = true →
     check_pid_exists alive ((s.registry n).bind (fun r => r.pid))
          = false →
        (is_running s n alive).1.registry n = none ∧
        (is_running s n alive).2 = false) ∧
    (pidTruthy ((s.registry n).bind (fun r => r.pid)) = false →
        (is_running s n alive).1 = s ∧ (is_running s n alive).2 = false) ∧
    (∀ raw : List (String × RawInfo),
        ∀ e ∈ restore_processes alive raw, keepEntry alive e.2 = true) ∧
    (∀ raw : List (String × RawInfo), ∀ e ∈ raw,
        keepEntry alive e.2 = false →
          e ∉ restore_processes alive raw) := by
  refine ⟨?_, ?_, ?_, ?_, ?_⟩
  · intro h2
    rw [is_running_eval s n alive hproc] at h2
    by_contra hck
    rw [Bool.not_eq_true] at hck
    simp only [hck, Bool.and_false, Bool.false_eq_true, if_false] at h2
    split at h2 <;> simp at h2
  · intro hpt hck
    rw [is_running_eval s n alive hproc]
    simp [hpt, hck, remove_status]
  · intro hpt
    rw [is_running_eval s n alive hproc]
    simp [hpt]
  · intro raw e he
    exact (List.mem_filter.mp he).2
  · intro raw e _ hk hmem
    simp [restore_processes, List.mem_filter, hk] at hmem

/-- Witness for the amended C6 theorem: a truthy dead pid is purged by
the read, and a dead-pid entry does not survive restoration. -/
theorem c6_read_revalidation_witness :
    pidTruthy ((c6wstate.registry "collector").bind (fun r => r.pid))
      = true ∧
    check_pid_exists (fun _ => false)
      ((c6wstate.registry "collector").bind (fun r => r.pid)) = false ∧
    (is_running c6wstate "collector" (fun _ => false)).1.registry
      "collector" = none ∧
    (is_running c6wstate "collector" (fun _ => false)).2 = false ∧
    ("collector", RawInfo.dict ⟨some 99, "2026-01-01T08:00:00", none⟩) ∉
      restore_processes (fun _ => false)
        [("collector",
          RawInfo.dict ⟨some 99, "2026-01-01T08:00:00", none⟩)] := by
  have h := c6_read_revalidation c6wstate "collector" (fun _ => false) rfl
  refine ⟨rfl, rfl, (h.2.1 rfl rfl).1, (h.2.1 rfl rfl).2, ?_⟩
  exact h.2.2.2.2
    [("collector", RawInfo.dict ⟨some 99, "2026-01-01T08:00:00", none⟩)]
    ("collector", RawInfo.dict ⟨some 99, "2026-01-01T08:00:00", none⟩)
    (by simp) rfl

/-- A state whose registry holds a stale record for "upload_monitor"
(pid 99, dead under the oracle used below). -/
def c8state : PMState :=
  { registry := tableSet emptyTable "upload_monitor"
      ⟨some 99, "2026-01-01T07:00:00", none⟩,
    processes := fun _ => none,
    logFiles := fun _ => false,
    logData := fun _ => none }

/-- Start environment for C8: every pid dead, spawn fails. -/
def c8env : StartEnv := ⟨fun _ => false, false, 0, "2026-01-02T07:00:00"⟩

/-- An empty state for the C8 witness. -/
def c8wstate : PMState :=
  ⟨emptyTable, fun _ => none, fun _ => false, fun _ => none⟩

/-- C8 fails on the code as stated: when the registry held a stale
(dead-pid) record for the name, the is_running pre-check of
start_process purges it before the spawn is attempted, so after a
failed spawn the registry is NOT unchanged from before the call — the
stale entry is gone (though nothing was written). -/
theorem c8_counterexample :
    c8state.registry "upload_monitor"
      = some ⟨some 99, "2026-01-01T07:00:00", none⟩ ∧
    (start_process c8state "upload_monitor" none c8env).ret = false ∧
    (start_process c8state "upload_monitor" none c8env).state.registry
      "upload_monitor" = none := by
  refine ⟨rfl, rfl, rfl⟩

/-- Effect of the is_running read on the registry: entries of other
names are untouched, and the entry of the queried name is either
untouched or removed — never written. -/
theorem is_running_registry_effect (s : PMState) (n : String)
    (alive : Int → Bool) :
    (∀ m, m ≠ n → (is_running s n alive).1.registry m = s.registry m) ∧
    ((is_running s n alive).1.registry n = s.registry n ∨
     (is_running s n alive).1.registry n = none) := by
  cases hp : s.processes n
  · simp only [is_running, hp]
    split_ifs with h1 h2
    · exact ⟨fun m _ => rfl, Or.inl rfl⟩
    · refine ⟨fun m hm => ?_, Or.inr ?_⟩
      · simp [remove_status, hm]
      · simp [remove_status]
    · exact ⟨fun m _ => rfl, Or.inl rfl⟩
  · simp only [is_running, hp]
    split_ifs with h1
    · exact ⟨fun m _ => rfl, Or.inl rfl⟩
    · refine ⟨fun m hm => ?_, Or.inr ?_⟩
      · simp [cleanup_process, remove_status, hm]
      · simp [cleanup_process, remove_status]

/-- C8 amended: when the spawn fails, start_process returns False, the
log handle it opened is closed, and nothing is written to the registry:
the registry equals its state right after the is_running pre-check —
every other name's entry is exactly as before the call, and the entry of
the started name is either as before or purged by that pre-check
(when it was stale). -/
theorem c8_spawn_failure_no_partial_state (s : PMState) (n : String)
    (cfg : Option ConfigBlob) (env : StartEnv)
    (hspawn : env.spawnOk = false)
    (hrun : (is_running s n env.alive).2 = false) :
    (start_process s n cfg env).ret = false ∧
    (start_process s n cfg env).newHandleOpen = false ∧
    (start_process s n cfg env).state.registry =
      (is_running s n env.alive).1.registry ∧
    (∀ m, m ≠ n →
      (start_process s n cfg env).state.registry m = s.registry m) ∧
    ((start_process s n cfg env).state.registry n = s.registry n ∨
     (start_process s n cfg env).state.registry n = none) := by
  have heff := is_running_registry_effect s n env.alive
  have hstart : start_process s n cfg env =
      ⟨{ (is_running s n env.alive).1 with
          logData := fun m => if m = n then some []
            else (is_running s n env.alive).1.logData m }, false, false⟩ := by
    simp [start_process, hrun, hspawn]
  rw [hstart]
  exact ⟨rfl, rfl, rfl, fun m hm => heff.1 m hm, heff.2⟩

/-- Witness for the amended C8 theorem on an empty state with a failing
spawn. -/
theorem c8_spawn_failure_no_partial_state_witness :
    (start_process c8wstate "upload_monitor" none c8env).ret = false ∧
    (start_process c8wstate "upload_monitor" none c8env).newHandleOpen
      = false ∧
    (start_process c8wstate "upload_monitor" none c8env).state.registry
        "news_collection" = c8wstate.registry "news_collection" ∧
    ((start_process c8wstate "upload_monitor" none c8env).state.registry
        "upload_monitor" = c8wstate.registry "upload_monitor" ∨
     (start_process c8wstate "upload_monitor" none c8env).state.registry
        "upload_monitor" = none) := by
  have h := c8_spawn_failure_no_partial_state c8wstate "upload_monitor"
    none c8env rfl rfl
  exact ⟨h.1, h.2.1, h.2.2.2.1 "news_collection" (by decide), h.2.2.2.2⟩

/-- Python slice xs[-k:] for a positive count k keeps exactly the last k
elements (all of xs when k exceeds the length). -/
theorem pySliceFrom_negOfNat {α : Type} (xs : List α) (k : Nat)
    (hk : 1 ≤ k) :
    pySliceFrom xs (-(k : Int)) = xs.drop (xs.length - k) := by
  simp only [pySliceFrom]
  have hneg : (-(k : Int)) < 0 := by
    have h1 : (1 : Int) ≤ (k : Int) := by exact_mod_cast hk
    omega
  rw [if_pos hneg]
  congr 1
  rcases le_total ((xs.length : Int) + -(k : Int)) 0 with hle | hle
  · rw [max_eq_right hle]
    omega
  · rw [max_eq_left hle]
    omega

/-- C9: for a log file of N lines and a requested count k with
1 ≤ k < N, get_logs returns exactly the last k lines in their original
order (the drop of the first N − k lines, of length exactly k); for a
missing log file it returns the empty result — the missing-file case is
skipped before any read, so nothing is raised. -/
theorem c9_tail_semantics (xs : List String) (k : Nat) (h1 : 1 ≤ k)
    (h2 : k < xs.length) :
    get_logs_lines (.readable xs) (k : Int) = xs.drop (xs.length - k) ∧
    (get_logs_lines (.readable xs) (k : Int)).length = k ∧
    get_logs_lines .missing (k : Int) = [] ∧
    get_logs .missing (k : Int) = "" := by
  have hs : get_logs_lines (.readable xs) (k : Int)
      = xs.drop (xs.length - k) := pySliceFrom_negOfNat xs k h1
  refine ⟨hs, ?_, rfl, rfl⟩
  rw [hs, List.length_drop]
  omega

/-- Witness for C9 on a three-line log tailed with k = 2. -/
theorem c9_tail_semantics_witness :
    get_logs_lines (.readable ["line 1\n", "line 2\n", "line 3\n"])
        ((2 : Nat) : Int) =
      ["line 1\n", "line 2\n", "line 3\n"].drop
        (["line 1\n", "line 2\n", "line 3\n"].length - 2) ∧
    (get_logs_lines (.readable ["line 1\n", "line 2\n", "line 3\n"])
        ((2 : Nat) : Int)).length = 2 ∧
    get_logs_lines .missing ((2 : Nat) : Int) = [] ∧
    get_logs .missing ((2 : Nat) : Int) = "" :=
  c9_tail_semantics ["line 1\n", "line 2\n", "line 3\n"] 2 (by decide)
    (by decide)

/-- C10: because get_logs slices with all_lines[-lines:], asking for 0
lines returns the whole file (index -0 is 0, so the slice is the entire
list), while any request of at least one line returns at most that many
lines. -/
theorem c10_zero_lines_returns_all (xs : List String) (_hne : xs ≠ []) :
    get_logs_lines (.readable xs) 0 = xs ∧
    get_logs (.readable xs) 0 = String.join xs ∧
    ∀ l : Nat, 1 ≤ l →
      (get_logs_lines (.readable xs) (l : Int)).length ≤ l := by
  have h0 : get_logs_lines (.readable xs) 0 = xs := by
    show pySliceFrom xs (-(0 : Int)) = xs
    simp [pySliceFrom]
  refine ⟨h0, ?_, ?_⟩
  · show String.join (get_logs_lines (.readable xs) 0) = String.join xs
    rw [h0]
  · intro l hl
    rw [show get_logs_lines (.readable xs) (l : Int)
        = xs.drop (xs.length - l) from pySliceFrom_negOfNat xs l hl,
      List.length_drop]
    omega

/-- Witness for C10 on a two-line log asked for 0 and then 5 lines. -/
theorem c10_zero_lines_returns_all_witness :
    get_logs_lines (.readable ["a\n", "b\n"]) 0 = ["a\n", "b\n"] ∧
    (get_logs_lines (.readable ["a\n", "b\n"]) ((5 : Nat) : Int)).length
      ≤ 5 := by
  have h := c10_zero_lines_returns_all ["a\n", "b\n"]
    (List.cons_ne_nil _ _)
  exact ⟨h.1, h.2.2 5 (by norm_num)⟩

end ProcessManager
